import Mathlib

/-!
Verification of the conversation-context manager of this repository
(`src/intelligent_context_manager.py`, classes `IntelligentContextManager` /
`ContextManagerIntegration`) against its natural-language specification.

The Python module is shallowly embedded below:
* strings are Lean `String`s, and Python slicing / `len` / `str.lower` /
  `split` are modelled character-exactly on the underlying `List Char`;
* SQLite `REAL` columns (timestamps, importance scores) are modelled as `ℚ`
  (every value the program itself computes is an exact small decimal, so no
  floating-point rounding is observable in the properties below);
* the three tables plus the in-process `working_memory` deque form an explicit
  state record `CMState`; SQL queries become list filters, the
  `ORDER BY timestamp DESC` clause a stable descending insertion sort
  (ties keep insertion order), `LIMIT n` a `take n`;
* `json.loads` is an external library call and is passed in as an explicit
  parameter `json_loads : String → Option (List (String × String))`
  (`none` models a raised `json.JSONDecodeError`);
* Python's `max(set(xs), key=xs.count)` iterates a hash-ordered set, whose
  order the source does not determine; the iteration order is therefore an
  explicit parameter `setOrder` (any duplicate-free enumeration of `xs`).
-/

namespace PurpleRain

/-! ## Character-exact string helpers (Python semantics) -/

/-- Python slicing `s[:n]`. -/
def strTake (s : String) (n : Nat) : String := String.mk (s.data.take n)

/-- Python `len(s)` (character count). -/
def strLen (s : String) : Nat := s.data.length

/-- Python `s.lower()` (the program only lowercases ASCII text). -/
def lowerStr (s : String) : String := String.mk (s.data.map Char.toLower)

/-- Python `s.split(sep)[0]`: the text before the first occurrence of the
separator character. -/
def firstSegment (sep : Char) (s : String) : String :=
  String.mk (s.data.takeWhile (fun c => c ≠ sep))

/-- Python substring membership `pat in hay`. -/
def strContains (hay pat : String) : Bool :=
  (List.range (hay.data.length + 1)).any (fun i => pat.data.isPrefixOf (hay.data.drop i))

/-- Python `sep.join(parts)`. -/
def joinSep (sep : String) : List String → String
  | [] => ""
  | [x] => x
  | x :: y :: xs => x ++ sep ++ joinSep sep (y :: xs)

/-- Helper for `pyWords`: accumulates the current word (reversed). -/
def pyWordsAux (acc : List Char) : List Char → List String
  | [] => if acc.isEmpty then [] else [String.mk acc.reverse]
  | c :: rest =>
    if c.isWhitespace then
      if acc.isEmpty then pyWordsAux [] rest
      else String.mk acc.reverse :: pyWordsAux [] rest
    else pyWordsAux (c :: acc) rest

/-- Python `s.split()` with no argument: splits on whitespace runs and never
returns empty words. -/
def pyWords (s : String) : List String := pyWordsAux [] s.data

/-- Python `bool(set(a.split()) & set(b.split()))`: the word sets of the two
strings intersect (whitespace tokenization). -/
def wordsIntersect (a b : String) : Bool :=
  (pyWords a).any (fun w => (pyWords b).contains w)

/-- Python `xs[-n:]`. -/
def lastN {α : Type} (n : Nat) (l : List α) : List α := l.drop (l.length - n)

/-- Python `max(iterable, key=key)`: first element (in iteration order)
whose key is maximal; later elements replace the champion only on a
strictly greater key. -/
def pyMax (key : String → Nat) : List String → String
  | [] => ""
  | h :: t => t.foldl (fun best c => if key c > key best then c else best) h

/-! ## Data model (`ConversationTurn`, `ContextSummary`, store state) -/

/-- `ConversationTurn` dataclass / `conversation_turns` table row. -/
structure ConversationTurn where
  user_id : String
  message : String
  response : String
  timestamp : ℚ
  message_hash : String
  context_summary : String
  importance_score : ℚ
  topic_tags : List String
  memory_type : String
deriving DecidableEq

/-- `ContextSummary` dataclass (ephemeral, built per request). -/
structure ContextSummary where
  current_topic : String
  key_facts : List String
  user_preferences : List (String × String)
  recent_context : String
  conversation_goal : String
deriving DecidableEq

/-- Whole observable state of one `IntelligentContextManager`:
the `conversation_turns` table (insertion order), the `working_memory`
deque (oldest first) and the `user_profiles` table
(`user_id` is its primary key; the `preferences` column is nullable). -/
structure CMState where
  turns : List ConversationTurn
  working_memory : List ConversationTurn
  profiles : List (String × Option String)
deriving DecidableEq

/-- `self.max_working_memory = 10`. -/
def max_working_memory : Nat := 10

/-- `self.max_context_chars = 2000`. -/
def max_context_chars : Nat := 2000

/-- The fixed salience keyword list of `calculate_importance_score`. -/
def important_keywords : List String :=
  ["remember", "important", "goal", "project", "deadline",
   "preference", "like", "dislike", "always", "never",
   "configure", "setup", "error", "problem", "solution"]

/-- The fixed topic→keywords table of `extract_topic_tags`
(insertion order of the Python dict). -/
def tech_keywords : List (String × List String) :=
  [("programming", ["code", "programming", "python", "javascript", "api"]),
   ("ai", ["ai", "artificial intelligence", "machine learning", "model"]),
   ("business", ["business", "strategy", "market", "revenue", "profit"]),
   ("security", ["security", "authentication", "encryption", "password"]),
   ("database", ["database", "sql", "query", "data"]),
   ("web", ["web", "html", "css", "frontend", "backend"]),
   ("deployment", ["deploy", "server", "production", "hosting"])]

/-- The fixed goal→keywords table of `infer_conversation_goal`
(insertion order of the Python dict). -/
def goal_patterns : List (String × List String) :=
  [("help_request", ["help", "how to", "can you", "please"]),
   ("problem_solving", ["error", "issue", "problem", "fix", "debug"]),
   ("information_seeking", ["what is", "explain", "tell me about", "describe"]),
   ("task_completion", ["create", "build", "make", "generate", "write"]),
   ("configuration", ["setup", "configure", "install", "settings"]),
   ("learning", ["learn", "understand", "tutorial", "guide", "example"])]

/-! ## Scorer, tagger, summarizer -/

/-- `calculate_importance_score` (lines 99-127): base 5.0, +1 per salience
keyword found in the lowercased `message + " " + response`, +1 for a
question mark in the message, +1 for a response longer than 500 chars,
-1 when message < 20 chars and response < 50 chars, clamped to [1, 10]. -/
def calculate_importance_score (message response : String) : ℚ :=
  let text := lowerStr (message ++ " " ++ response)
  let s0 : ℚ := 5
  let s1 := s0 + ((important_keywords.filter (fun k => strContains text k)).length : ℚ)
  let s2 := if message.data.contains '?' then s1 + 1 else s1
  let s3 := if strLen response > 500 then s2 + 1 else s2
  let s4 := if strLen message < 20 ∧ strLen response < 50 then s3 - 1 else s3
  min (max s4 1) 10

/-- `extract_topic_tags` (lines 129-149). -/
def extract_topic_tags (message response : String) : List String :=
  let text := lowerStr (message ++ " " ++ response)
  (tech_keywords.filter (fun tk => tk.2.any (fun k => strContains text k))).map
    (fun tk => tk.1)

/-- `generate_context_summary` (lines 151-177). The `user_id` parameter is
kept because the source function takes it — the source body never uses it.
`setOrder` supplies the iteration order of Python's `set(recent_tags)`
(any duplicate-free enumeration of the list; the source leaves it to the
interpreter's hash order). -/
def generate_context_summary (setOrder : List String → List String)
    (user_id : String) (recent_turns : List ConversationTurn) : String :=
  if recent_turns.isEmpty then "New conversation" else
  let recent_tags := ((lastN 3 recent_turns).map (fun t => t.topic_tags)).flatten
  let current_topic :=
    if recent_tags.isEmpty then "general"
    else pyMax (fun tag => recent_tags.count tag) (setOrder recent_tags)
  let key_points := recent_turns.filterMap (fun t =>
    if t.importance_score > 7 then
      let first_sentence := strTake (firstSegment '.' t.response) 100
      if first_sentence ≠ "" ∧ strLen first_sentence > 20 then some first_sentence else none
    else none)
  let summary_parts :=
    ["Topic: " ++ current_topic] ++
      (if key_points.isEmpty then []
       else ["Key points: " ++ joinSep "; " (key_points.take 3)])
  strTake (joinSep " | " summary_parts) 500

/-! ## Retention classification and turn storage -/

/-- The memory-class assignment inlined in `store_conversation_turn`
(lines 192-198). -/
def memory_type_of (importance_score : ℚ) : String :=
  if importance_score > 8 then "long_term"
  else if importance_score > 6 then "working"
  else "ephemeral"

/-- `deque(maxlen=10)` append. -/
def pushWorking (wm : List ConversationTurn) (t : ConversationTurn) : List ConversationTurn :=
  let l := wm ++ [t]
  l.drop (l.length - max_working_memory)

/-- `store_conversation_turn` (lines 179-232); `time.time()` and the md5
hash are explicit inputs. Note the source passes the whole (unfiltered)
`self.working_memory` to `generate_context_summary`. -/
def store_conversation_turn (setOrder : List String → List String) (st : CMState)
    (user_id message response : String) (timestamp : ℚ) (message_hash : String) :
    CMState × ConversationTurn :=
  let importance_score := calculate_importance_score message response
  let topic_tags := extract_topic_tags message response
  let context_summary := generate_context_summary setOrder user_id st.working_memory
  let memory_type := memory_type_of importance_score
  let turn : ConversationTurn :=
    { user_id := user_id, message := message, response := response,
      timestamp := timestamp, message_hash := message_hash,
      context_summary := context_summary, importance_score := importance_score,
      topic_tags := topic_tags, memory_type := memory_type }
  ({ turns := st.turns ++ [turn],
     working_memory := pushWorking st.working_memory turn,
     profiles := st.profiles }, turn)

/-! ## Turn-store query and context building -/

/-- Stable descending insertion by timestamp (models
`ORDER BY timestamp DESC`; rows with equal timestamps keep insertion
order). -/
def insertTimestampDesc (t : ConversationTurn) :
    List ConversationTurn → List ConversationTurn
  | [] => [t]
  | h :: rest =>
    if t.timestamp > h.timestamp then t :: h :: rest
    else h :: insertTimestampDesc t rest

/-- Sort newest first (stable). -/
def sortTimestampDesc (l : List ConversationTurn) : List ConversationTurn :=
  l.foldl (fun acc t => insertTimestampDesc t acc) []

/-- The SQL query of `get_relevant_context` (lines 244-250):
`WHERE user_id = ? AND importance_score > 7.0 AND memory_type IN
('working', 'long_term') ORDER BY timestamp DESC LIMIT 5`. -/
def queryImportantHistory (st : CMState) (user_id : String) : List ConversationTurn :=
  (sortTimestampDesc (st.turns.filter (fun t =>
    t.user_id == user_id && decide (t.importance_score > 7) &&
      (t.memory_type == "working" || t.memory_type == "long_term")))).take 5

/-- The key-fact construction of `get_relevant_context` (lines 260-265):
only rows with score > 8.0 contribute; the fact is
`response[:100].split('.')[0]` and must be nonempty and longer than 20
characters. -/
def keyFactsOf (important_history : List ConversationTurn) : List String :=
  important_history.filterMap (fun h =>
    if h.importance_score > 8 then
      let fact := firstSegment '.' (strTake h.response 100)
      if fact ≠ "" ∧ strLen fact > 20 then some fact else none
    else none)

/-- Lookup of the `preferences` column for a user in `user_profiles`
(`user_id` is the table's primary key). `none` = no row,
`some none` = row with NULL preferences. -/
def profileRowOf (st : CMState) (user_id : String) : Option (Option String) :=
  (st.profiles.find? (fun p => p.1 == user_id)).map (fun p => p.2)

/-- `get_user_preferences` (lines 291-305): a missing row, a NULL or empty
column, or a `json.JSONDecodeError` (here: `json_loads _ = none`) all
yield the empty dict; the embedding is total, modelling that the Python
function never raises. -/
def get_user_preferences (json_loads : String → Option (List (String × String)))
    (st : CMState) (user_id : String) : List (String × String) :=
  match profileRowOf st user_id with
  | some (some s) => if s ≠ "" then (json_loads s).getD [] else []
  | _ => []

/-- `update_user_preferences` (lines 307-316): `INSERT OR REPLACE`. -/
def update_user_preferences (json_dumps : List (String × String) → String)
    (st : CMState) (user_id : String) (preferences : List (String × String)) : CMState :=
  { turns := st.turns, working_memory := st.working_memory,
    profiles := (user_id, some (json_dumps preferences)) ::
      st.profiles.filter (fun p => p.1 ≠ user_id) }

/-- `infer_conversation_goal` (lines 318-342). -/
def infer_conversation_goal (current_message : String)
    (recent_turns : List ConversationTurn) : String :=
  let message_lower := lowerStr current_message
  match goal_patterns.find? (fun gp => gp.2.any (fun k => strContains message_lower k)) with
  | some gp => gp.1
  | none =>
    match recent_turns.getLast? with
    | some last_turn =>
      if last_turn.topic_tags.contains "programming" || last_turn.topic_tags.contains "code"
      then "programming_assistance" else "general_conversation"
    | none => "general_conversation"

/-- `get_relevant_context` (lines 234-289). The `max_chars` parameter is
bound (through Python's `max_chars or self.max_context_chars`, where 0 is
falsy) and then never used by the body — exactly as in the source. -/
def get_relevant_context (json_loads : String → Option (List (String × String)))
    (st : CMState) (user_id current_message : String) (maxChars : Option Nat) :
    ContextSummary :=
  let _mc : Nat :=
    match maxChars with
    | some k => if k = 0 then max_context_chars else k
    | none => max_context_chars
  let recent_turns := st.working_memory.filter (fun t => t.user_id == user_id)
  let important_history := queryImportantHistory st user_id
  let current_tags := extract_topic_tags current_message ""
  let current_topic := current_tags.headD "general"
  let key_facts := keyFactsOf important_history
  let user_prefs := get_user_preferences json_loads st user_id
  let recent_context_parts := (lastN 2 recent_turns).filterMap (fun t =>
    if t.importance_score > 6 then
      some ("User: " ++ strTake t.message 50 ++ "... | AI: " ++ strTake t.response 50 ++ "...")
    else none)
  let recent_context := joinSep " || " recent_context_parts
  let conversation_goal := infer_conversation_goal current_message recent_turns
  { current_topic := current_topic, key_facts := key_facts.take 3,
    user_preferences := user_prefs, recent_context := strTake recent_context 500,
    conversation_goal := conversation_goal }

/-- The fact-relevance filter of `prepare_ai_context` (lines 361-368):
keep facts whose lowercased word set intersects the lowercased current
message's word set. -/
def relevantFactsOf (key_facts : List String) (current_message : String) : List String :=
  key_facts.filter (fun fact => wordsIntersect (lowerStr fact) (lowerStr current_message))

/-- The preference-relevance filter of `prepare_ai_context` (lines 374-378):
keep entries whose lowercased key is a substring of the lowercased
message, rendered `"key: value"`. -/
def relevantPrefsOf (user_preferences : List (String × String))
    (current_message : String) : List String :=
  (user_preferences.filter (fun kv => strContains (lowerStr current_message) (lowerStr kv.1))).map
    (fun kv => kv.1 ++ ": " ++ kv.2)

/-- The `context_parts` list assembled by `prepare_ai_context`
(lines 349-381), in source order: goal, topic, facts, preferences. -/
def contextParts (cs : ContextSummary) (current_message : String) : List String :=
  let goal_part :=
    if cs.conversation_goal ≠ "general_conversation"
    then ["Goal: " ++ cs.conversation_goal] else []
  let topic_part :=
    if cs.current_topic ≠ "general" then ["Topic: " ++ cs.current_topic] else []
  let relevant_facts := relevantFactsOf cs.key_facts current_message
  let fact_part :=
    if cs.key_facts ≠ [] ∧ relevant_facts ≠ []
    then ["Context: " ++ joinSep "; " (relevant_facts.take 2)] else []
  let relevant_prefs := relevantPrefsOf cs.user_preferences current_message
  let pref_part :=
    if cs.user_preferences ≠ [] ∧ relevant_prefs ≠ []
    then ["Preferences: " ++ joinSep "; " (relevant_prefs.take 2)] else []
  goal_part ++ topic_part ++ fact_part ++ pref_part

/-- `prepare_ai_context` (lines 344-391): join the parts with `" | "`;
if that exceeds `self.max_context_chars`, fall back to the first part
alone, hard-truncated to `self.max_context_chars`. -/
def prepare_ai_context (json_loads : String → Option (List (String × String)))
    (st : CMState) (user_id current_message : String) : String :=
  let cs := get_relevant_context json_loads st user_id current_message none
  let context_parts := contextParts cs current_message
  let full_context := joinSep " | " context_parts
  if strLen full_context > max_context_chars
  then strTake (context_parts.headD "") max_context_chars
  else full_context

/-- `cleanup_old_data` (lines 393-418): delete ephemeral turns older than
`days_to_keep` days and working turns older than 7 days with score below
6.0; `now` models `time.time()`. -/
def cleanup_old_data (st : CMState) (now : ℚ) (days_to_keep : ℚ) : CMState :=
  let cutoff_time := now - days_to_keep * 24 * 3600
  let working_cutoff := now - 7 * 24 * 3600
  let turns1 := st.turns.filter (fun t =>
    !(decide (t.timestamp < cutoff_time) && t.memory_type == "ephemeral"))
  let turns2 := turns1.filter (fun t =>
    !(decide (t.timestamp < working_cutoff) && t.memory_type == "working" &&
      decide (t.importance_score < 6)))
  { turns := turns2, working_memory := st.working_memory, profiles := st.profiles }

/-! ## Claim-side definitions (for comparison with the source embedding) -/

/-- The key-fact selection exactly as claim C6 words it: turns of this user
with `importance_score > 7.0`, newest-first, at most 5 rows fetched, each
reduced to the first sentence capped at 100 characters, kept when its word
set intersects the current message's word set, capped at 2. -/
def claimedKeyFacts (st : CMState) (user_id current_message : String) : List String :=
  let fetched := (sortTimestampDesc (st.turns.filter (fun t =>
    t.user_id == user_id && decide (t.importance_score > 7)))).take 5
  let facts := fetched.map (fun t => strTake (firstSegment '.' t.response) 100)
  (facts.filter (fun f => wordsIntersect (lowerStr f) (lowerStr current_message))).take 2

/-- The key facts that actually reach the built context string: the
`key_facts` of the `ContextSummary`, relevance-filtered against the
current message and capped at 2 (this is exactly the list joined into the
`"Context: ..."` part by `prepare_ai_context`). -/
def builtKeyFacts (json_loads : String → Option (List (String × String)))
    (st : CMState) (user_id current_message : String) : List String :=
  (relevantFactsOf (get_relevant_context json_loads st user_id current_message none).key_facts
    current_message).take 2

/-- The key-fact pipeline as claim C6 must be amended to match the code:
same fetch as `queryImportantHistory` (score > 7.0, memory class working or
long_term, newest-first, 5 rows), but a fact is produced only for rows with
score strictly above 8.0, must be nonempty and longer than 20 characters,
the fact list is capped at 3 before the relevance filter and at 2 after. -/
def amendedKeyFacts (st : CMState) (user_id current_message : String) : List String :=
  let fetched := queryImportantHistory st user_id
  let facts := (fetched.filterMap (fun t =>
    let f := firstSegment '.' (strTake t.response 100)
    if t.importance_score > 8 ∧ f ≠ "" ∧ strLen f > 20 then some f else none)).take 3
  (facts.filter (fun f => wordsIntersect (lowerStr f) (lowerStr current_message))).take 2

/-! ## Concrete inputs used by counterexamples and witnesses -/

/-- A `json.loads` model that always fails to decode. -/
def json0 : String → Option (List (String × String)) := fun _ => none

/-- Empty manager state (fresh database, empty working memory). -/
def stEmpty : CMState := { turns := [], working_memory := [], profiles := [] }

/-- A 1990-character preference value (adversarially long). -/
def bigPrefValue : String := String.mk (List.replicate 1990 'a')

/-- A `json.loads` model decoding the stored profile string `"J"` to a
single long preference entry keyed `"x"`. -/
def jsonBig : String → Option (List (String × String)) :=
  fun s => if s = "J" then some [("x", bigPrefValue)] else none

/-- State whose only content is a preferences row for user `"u"`. -/
def stPrefs : CMState := { turns := [], working_memory := [], profiles := [("u", some "J")] }

/-- A cached turn belonging to a different user `"v"`, tagged `ai`. -/
def otherUserTurn : ConversationTurn :=
  { user_id := "v", message := "m", response := "r", timestamp := 1,
    message_hash := "h1", context_summary := "", importance_score := 5,
    topic_tags := ["ai"], memory_type := "working" }

/-- State differing from `stEmpty` only by the cached turn of user `"v"`. -/
def stOtherCache : CMState :=
  { turns := [], working_memory := [otherUserTurn], profiles := [] }

/-- A stored turn of user `"u"` with importance score exactly 8.0
(above the 7.0 fetch threshold, not above 8.0). -/
def factTurn : ConversationTurn :=
  { user_id := "u", message := "m",
    response := "a memorable fact about lean proofs here",
    timestamp := 100, message_hash := "h2", context_summary := "",
    importance_score := 8, topic_tags := [], memory_type := "working" }

/-- State holding only `factTurn`. -/
def stFacts : CMState := { turns := [factTurn], working_memory := [], profiles := [] }

/-- A cached turn carrying two tags that tie on frequency. -/
def tieTurn : ConversationTurn :=
  { user_id := "u", message := "m", response := "r", timestamp := 1,
    message_hash := "h3", context_summary := "", importance_score := 5,
    topic_tags := ["programming", "ai"], memory_type := "working" }

/-- A long_term turn timestamped 400 days before the cleanup call below. -/
def oldLongTermTurn : ConversationTurn :=
  { user_id := "u", message := "m", response := "r", timestamp := 0,
    message_hash := "h4", context_summary := "", importance_score := 9,
    topic_tags := [], memory_type := "long_term" }

/-- State holding only `oldLongTermTurn`. -/
def stOld : CMState := { turns := [oldLongTermTurn], working_memory := [], profiles := [] }

/-- State whose preferences row for `"u"` holds a non-JSON string. -/
def stCorrupt : CMState :=
  { turns := [], working_memory := [], profiles := [("u", some "not json")] }

/-! ## Theorems -/

/-- C1 (counterexample): the budget law fails for a budget below the fixed
instance cap. With an empty store and message `"help me please"`, passing
`max_chars = 5` changes nothing (`get_relevant_context` ignores it), and
the built context string has 18 characters, exceeding the budget 5. -/
theorem max_chars_budget_counterexample :
    get_relevant_context json0 stEmpty "u" "help me please" (some 5)
        = get_relevant_context json0 stEmpty "u" "help me please" none ∧
    prepare_ai_context json0 stEmpty "u" "help me please" = "Goal: help_request" ∧
    strLen (prepare_ai_context json0 stEmpty "u" "help me please") = 18 ∧ 5 < 18 := by
  refine ⟨rfl, by decide, by decide, by decide⟩

/-- C3: storing a turn for user `"u"` writes a `context_summary` derived
from the unfiltered working memory. Two states that agree on every datum
of `"u"` (same turn table, same profiles, same cached turns of `"u"`) and
differ only by one cached turn of user `"v"` produce different stored
metadata for `"u"`'s new turn: the summary leaks `"v"`'s topic. -/
theorem context_summary_cross_user_leak :
    (store_conversation_turn List.dedup stEmpty "u" "hi" "there" 10 "h").2.context_summary
        = "New conversation" ∧
    (store_conversation_turn List.dedup stOtherCache "u" "hi" "there" 10 "h").2.context_summary
        = "Topic: ai" ∧
    stEmpty.turns = stOtherCache.turns ∧
    stEmpty.profiles = stOtherCache.profiles ∧
    stEmpty.working_memory.filter (fun t => t.user_id == "u")
        = stOtherCache.working_memory.filter (fun t => t.user_id == "u") := by
  refine ⟨by decide, by decide, rfl, rfl, by decide⟩

/-- C6 (counterexample): a stored turn with importance score exactly 8.0
passes the claimed filter (score > 7.0) and its first sentence shares the
words `about`/`lean` with the message, so the claim predicts it appears as
a key fact; the code only turns rows with score > 8.0 into facts and
produces none. -/
theorem key_facts_rule_counterexample :
    claimedKeyFacts stFacts "u" "tell me about lean"
        = ["a memorable fact about lean proofs here"] ∧
    builtKeyFacts json0 stFacts "u" "tell me about lean" = [] := by
  refine ⟨by decide, by decide⟩

/-- C7: the summarizer's topic tie-break is Python's `max` over
`set(recent_tags)`, whose iteration order the source does not determine.
For a single turn tagged `programming` then `ai` (a frequency tie), two
admissible set-iteration orders (the duplicate-free enumerations in
first-encountered order and its reverse — a permutation of the same set)
yield different summaries, so the claimed first-encountered tie-break and
the claimed determinism are not properties of the source. -/
theorem summary_topic_depends_on_set_order :
    generate_context_summary (fun l => l.dedup) "u" [tieTurn] = "Topic: programming" ∧
    generate_context_summary (fun l => l.dedup.reverse) "u" [tieTurn] = "Topic: ai" ∧
    List.Perm (["programming", "ai"].dedup.reverse) (["programming", "ai"].dedup) := by
  refine ⟨by decide, by decide, by decide⟩

/-- The hard truncation `s[:n]` never yields more than `n` characters. -/
theorem strLen_strTake_le (s : String) (n : Nat) : strLen (strTake s n) ≤ n := by
  simp [strLen, strTake]

/-- Whatever parts list `prepare_ai_context` assembles, the final branch
keeps the result within `max_context_chars`. -/
theorem prepare_parts_len_le (parts : List String) :
    strLen (if strLen (joinSep " | " parts) > max_context_chars
      then strTake (parts.headD "") max_context_chars
      else joinSep " | " parts) ≤ max_context_chars := by
  split
  · exact strLen_strTake_le _ _
  · next h => exact Nat.le_of_not_lt h

/-- C1 (amended): the context string built by `prepare_ai_context` always
has length at most the fixed instance constant `max_context_chars = 2000`
— for every store state, user and message; the budget law with bound `k`
therefore holds exactly when `k ≥ 2000`, not for arbitrary `k`. -/
theorem context_length_bounded_by_instance_cap
    (json_loads : String → Option (List (String × String)))
    (st : CMState) (u msg : String) :
    strLen (prepare_ai_context json_loads st u msg) ≤ max_context_chars :=
  prepare_parts_len_le (contextParts (get_relevant_context json_loads st u msg none) msg)

/-- C10: `get_relevant_context` binds its `max_chars` argument and never
uses it — any two values give identical results — and the character cap
actually enforced on the built context is the fixed instance constant
`max_context_chars = 2000`. -/
theorem get_relevant_context_ignores_max_chars
    (json_loads : String → Option (List (String × String)))
    (st : CMState) (u msg : String) (k1 k2 : Option Nat) :
    get_relevant_context json_loads st u msg k1 = get_relevant_context json_loads st u msg k2 ∧
    strLen (prepare_ai_context json_loads st u msg) ≤ max_context_chars :=
  ⟨rfl, prepare_parts_len_le _⟩

/-- The three-way classification of `memory_type_of`, characterized by the
strict thresholds. -/
theorem memory_type_of_spec (s : ℚ) :
    (memory_type_of s = "long_term" ↔ s > 8) ∧
    (memory_type_of s = "working" ↔ 6 < s ∧ s ≤ 8) ∧
    (memory_type_of s = "ephemeral" ↔ s ≤ 6) := by
  have h1 : ("long_term" : String) ≠ "working" := by decide
  have h2 : ("long_term" : String) ≠ "ephemeral" := by decide
  have h3 : ("working" : String) ≠ "long_term" := by decide
  have h4 : ("working" : String) ≠ "ephemeral" := by decide
  have h5 : ("ephemeral" : String) ≠ "long_term" := by decide
  have h6 : ("ephemeral" : String) ≠ "working" := by decide
  unfold memory_type_of
  split_ifs with ha hb
  · refine ⟨by simp [ha], ?_, ?_⟩
    · simp only [h1, false_iff]
      rintro ⟨-, hle⟩
      exact absurd ha (not_lt.mpr hle)
    · simp only [h2, false_iff]
      intro hle
      exact absurd ha (not_lt.mpr (by linarith))
  · refine ⟨?_, ?_, ?_⟩
    · simp only [h3, false_iff]
      exact ha
    · simp [hb, not_lt.mp ha]
    · simp only [h4, false_iff]
      intro hle
      exact absurd hb (not_lt.mpr hle)
  · refine ⟨?_, ?_, ?_⟩
    · simp only [h5, false_iff]
      exact ha
    · simp only [h6, false_iff]
      rintro ⟨hgt, -⟩
      exact absurd hgt hb
    · simp [not_lt.mp hb]

/-- C4: the memory class assigned at turn creation is `long_term` iff the
computed importance score is strictly above 8.0, `working` iff it lies in
(6.0, 8.0], and `ephemeral` otherwise; at score exactly 6.0 the class is
`ephemeral` and at exactly 8.0 it is `working`. -/
theorem memory_classification_thresholds (setOrder : List String → List String)
    (st : CMState) (u m r : String) (ts : ℚ) (mh : String) :
    ((store_conversation_turn setOrder st u m r ts mh).2.memory_type = "long_term"
        ↔ (store_conversation_turn setOrder st u m r ts mh).2.importance_score > 8) ∧
    ((store_conversation_turn setOrder st u m r ts mh).2.memory_type = "working"
        ↔ 6 < (store_conversation_turn setOrder st u m r ts mh).2.importance_score ∧
          (store_conversation_turn setOrder st u m r ts mh).2.importance_score ≤ 8) ∧
    ((store_conversation_turn setOrder st u m r ts mh).2.memory_type = "ephemeral"
        ↔ (store_conversation_turn setOrder st u m r ts mh).2.importance_score ≤ 6) ∧
    memory_type_of 6 = "ephemeral" ∧ memory_type_of 8 = "working" := by
  have hs := memory_type_of_spec
    ((store_conversation_turn setOrder st u m r ts mh).2.importance_score)
  refine ⟨hs.1, hs.2.1, hs.2.2, ?_, ?_⟩
  · unfold memory_type_of
    norm_num
  · unfold memory_type_of
    norm_num

/-- C5: for every pair of message/response strings the importance score
lies in the closed interval [1, 10] (the final clamp guarantees it no
matter how many salience keywords, question marks or length bonuses
accumulated). -/
theorem importance_score_clamped (message response : String) :
    1 ≤ calculate_importance_score message response ∧
    calculate_importance_score message response ≤ 10 := by
  have key : ∀ q : ℚ, 1 ≤ min (max q 1) 10 ∧ min (max q 1) 10 ≤ 10 := by
    intro q
    exact ⟨le_min (le_max_right q 1) (by norm_num), min_le_right _ _⟩
  exact key _

/-- `keyFactsOf` with its two nested conditionals merged into one guard. -/
theorem keyFactsOf_eq (l : List ConversationTurn) :
    keyFactsOf l = l.filterMap (fun t =>
      if t.importance_score > 8 ∧ (firstSegment '.' (strTake t.response 100)) ≠ "" ∧
          strLen (firstSegment '.' (strTake t.response 100)) > 20
      then some (firstSegment '.' (strTake t.response 100)) else none) := by
  unfold keyFactsOf
  congr 1
  funext t
  by_cases h8 : t.importance_score > 8 <;> simp [h8]

/-- C6 (amended): the key facts that reach the built context are exactly
the pipeline: rows fetched by `queryImportantHistory` (user's turns with
score > 7.0, working/long_term class, newest-first, 5 rows), of which only
rows with score > 8.0 yield a fact (first sentence of the response after
truncation to 100 characters, required nonempty and longer than 20
characters), capped at 3, then relevance-filtered against the current
message's word set and capped at 2. -/
theorem key_facts_pipeline_characterization
    (json_loads : String → Option (List (String × String)))
    (st : CMState) (u msg : String) :
    builtKeyFacts json_loads st u msg = amendedKeyFacts st u msg := by
  unfold builtKeyFacts amendedKeyFacts relevantFactsOf
  simp only [get_relevant_context, keyFactsOf_eq]

/-- C8: a `cleanup_old_data(days_to_keep)` call at time `now` keeps exactly
the stored turns that are neither ephemeral-and-older-than-`days_to_keep`
days nor working-with-score-below-6.0-and-older-than-7-days; in
particular every `long_term` turn survives, however old, and the rest of
the state (working memory, profiles) is untouched. -/
theorem cleanup_deletes_exactly_expired (st : CMState) (now days_to_keep : ℚ)
    (t : ConversationTurn) :
    (t ∈ (cleanup_old_data st now days_to_keep).turns ↔
      t ∈ st.turns ∧
      ¬(t.memory_type = "ephemeral" ∧ t.timestamp < now - days_to_keep * 24 * 3600) ∧
      ¬(t.memory_type = "working" ∧ t.importance_score < 6 ∧
        t.timestamp < now - 7 * 24 * 3600)) ∧
    (t.memory_type = "long_term" → t ∈ st.turns →
      t ∈ (cleanup_old_data st now days_to_keep).turns) ∧
    (cleanup_old_data st now days_to_keep).working_memory = st.working_memory ∧
    (cleanup_old_data st now days_to_keep).profiles = st.profiles := by
  have hiff : t ∈ (cleanup_old_data st now days_to_keep).turns ↔
      t ∈ st.turns ∧
      ¬(t.memory_type = "ephemeral" ∧ t.timestamp < now - days_to_keep * 24 * 3600) ∧
      ¬(t.memory_type = "working" ∧ t.importance_score < 6 ∧
        t.timestamp < now - 7 * 24 * 3600) := by
    simp only [cleanup_old_data, List.mem_filter, Bool.not_eq_true', Bool.eq_false_iff,
      ne_eq, Bool.and_eq_true, decide_eq_true_eq, beq_iff_eq]
    tauto
  refine ⟨hiff, ?_, rfl, rfl⟩
  intro hlt hmem
  rw [hiff]
  have e1 : t.memory_type ≠ "ephemeral" := by rw [hlt]; decide
  have e2 : t.memory_type ≠ "working" := by rw [hlt]; decide
  exact ⟨hmem, fun hc => e1 hc.1, fun hc => e2 hc.1⟩

/-- Witness for C8: a `long_term` turn timestamped 400 days
(34 560 000 seconds) before the call survives `cleanup_old_data` with
`days_to_keep = 30`. -/
theorem cleanup_deletes_exactly_expired_witness :
    oldLongTermTurn.memory_type = "long_term" ∧
    oldLongTermTurn ∈ stOld.turns ∧
    oldLongTermTurn ∈ (cleanup_old_data stOld 34560000 30).turns :=
  ⟨rfl, by decide,
    (cleanup_deletes_exactly_expired stOld 34560000 30 oldLongTermTurn).2.1 rfl (by decide)⟩

/-- C9: a stored preferences row whose string fails JSON decoding
(`json_loads s = none` models the `json.JSONDecodeError` caught on
line 302) yields the empty preference map, and a missing row does too;
the embedding is a total function, modelling that `get_user_preferences`
never raises to its caller. -/
theorem preference_decode_failure_yields_empty
    (json_loads : String → Option (List (String × String))) (st : CMState) (u s : String) :
    (profileRowOf st u = some (some s) → json_loads s = none →
      get_user_preferences json_loads st u = []) ∧
    (profileRowOf st u = none → get_user_preferences json_loads st u = []) := by
  constructor
  · intro hrow hdecode
    unfold get_user_preferences
    rw [hrow]
    by_cases hs : s = "" <;> simp [hs, hdecode]
  · intro hrow
    unfold get_user_preferences
    rw [hrow]

/-- Witness for C9: the profile row of `"u"` holds the non-JSON string
`"not json"`, decoding fails, and the lookup returns the empty map. -/
theorem preference_decode_failure_yields_empty_witness :
    profileRowOf stCorrupt "u" = some (some "not json") ∧
    get_user_preferences json0 stCorrupt "u" = [] :=
  ⟨by decide,
    (preference_decode_failure_yields_empty json0 stCorrupt "u" "not json").1 (by decide) rfl⟩

/-- `len(a + b) = len(a) + len(b)`. -/
theorem strLen_append (a b : String) : strLen (a ++ b) = strLen a + strLen b := by
  cases a
  cases b
  simp [strLen, String.append]

/-- The parts list assembled for the adversarial overflow state: goal,
topic, and one long preference entry (the long value is kept symbolic). -/
theorem stPrefs_parts_eq :
    contextParts (get_relevant_context jsonBig stPrefs "u" "help code x" none) "help code x"
      = ["Goal: help_request", "Topic: programming",
         "Preferences: " ++ ("x" ++ ": " ++ bigPrefValue)] := rfl

/-- The assembled parts of the overflow state measure 2048 characters. -/
theorem overflow_parts_len :
    strLen (joinSep " | " ["Goal: help_request", "Topic: programming",
      "Preferences: " ++ ("x" ++ ": " ++ bigPrefValue)]) = 2048 := by
  have hb : strLen bigPrefValue = 1990 := by
    show (List.replicate 1990 'a').length = 1990
    simp only [List.length_replicate]
  simp only [joinSep, strLen_append, hb]
  decide

/-- The assembled context of the overflow state exceeds the 2000-character
cap. -/
theorem stPrefs_overflow :
    strLen (joinSep " | "
      (contextParts (get_relevant_context jsonBig stPrefs "u" "help code x" none) "help code x"))
      > max_context_chars := by
  rw [stPrefs_parts_eq, overflow_parts_len]
  decide

/-- C2 (counterexample): with a goal part, a topic part and an
adversarially long preference entry, the assembled context exceeds
`max_chars = 2000` while goal+topic alone (39 characters) would fit; the
code then returns only the goal part — the topic content is dropped too,
contradicting the claim that the result still contains the topic. -/
theorem priority_drop_counterexample :
    strLen (joinSep " | "
      (contextParts (get_relevant_context jsonBig stPrefs "u" "help code x" none) "help code x"))
      > max_context_chars ∧
    strLen (joinSep " | " ["Goal: help_request", "Topic: programming"]) ≤ max_context_chars ∧
    (get_relevant_context jsonBig stPrefs "u" "help code x" none).conversation_goal
      = "help_request" ∧
    (get_relevant_context jsonBig stPrefs "u" "help code x" none).current_topic
      = "programming" ∧
    prepare_ai_context jsonBig stPrefs "u" "help code x" = "Goal: help_request" ∧
    strContains (prepare_ai_context jsonBig stPrefs "u" "help code x") "programming" = false := by
  have hprep : prepare_ai_context jsonBig stPrefs "u" "help code x" = "Goal: help_request" := by
    simp only [prepare_ai_context]
    rw [if_pos stPrefs_overflow]
    rw [stPrefs_parts_eq]
    decide
  refine ⟨stPrefs_overflow, by decide, by decide, by decide, hprep, ?_⟩
  rw [hprep]
  decide

/-- C2 (amended): when the assembled parts exceed `max_context_chars`,
`prepare_ai_context` returns the single highest-priority part alone,
hard-truncated to the cap — so no key-facts or preferences content
survives, but when a goal part is present the topic part is dropped as
well (the result is exactly the truncated goal part, not goal+topic). -/
theorem overflow_keeps_single_highest_priority_part
    (json_loads : String → Option (List (String × String)))
    (st : CMState) (u msg : String)
    (h : strLen (joinSep " | "
      (contextParts (get_relevant_context json_loads st u msg none) msg)) > max_context_chars) :
    prepare_ai_context json_loads st u msg =
      strTake ((contextParts (get_relevant_context json_loads st u msg none) msg).headD "")
        max_context_chars ∧
    ((get_relevant_context json_loads st u msg none).conversation_goal ≠ "general_conversation" →
      prepare_ai_context json_loads st u msg =
        strTake ("Goal: " ++ (get_relevant_context json_loads st u msg none).conversation_goal)
          max_context_chars) := by
  have h1 : prepare_ai_context json_loads st u msg =
      strTake ((contextParts (get_relevant_context json_loads st u msg none) msg).headD "")
        max_context_chars := by
    simp only [prepare_ai_context]
    rw [if_pos h]
  refine ⟨h1, ?_⟩
  intro hg
  have hhead : (contextParts (get_relevant_context json_loads st u msg none) msg).headD ""
      = "Goal: " ++ (get_relevant_context json_loads st u msg none).conversation_goal := by
    simp only [contextParts]
    rw [if_pos hg]
    simp
  rw [h1, hhead]

/-- Witness for C2 (amended): the concrete overflow state; the returned
context is the truncated goal part. -/
theorem overflow_keeps_single_highest_priority_part_witness :
    strLen (joinSep " | "
      (contextParts (get_relevant_context jsonBig stPrefs "u" "help code x" none) "help code x"))
      > max_context_chars ∧
    prepare_ai_context jsonBig stPrefs "u" "help code x" =
      strTake ("Goal: "
        ++ (get_relevant_context jsonBig stPrefs "u" "help code x" none).conversation_goal)
        max_context_chars :=
  ⟨stPrefs_overflow,
    (overflow_keeps_single_highest_priority_part jsonBig stPrefs "u" "help code x"
      stPrefs_overflow).2 (by decide)⟩

end PurpleRain
